import Mathlib

/-! Shallow embedding of the Solana/Anchor wagering-room program in
`src/app/contract/WORKINGCONTRACT01.RS`, and verification of its
room-lifecycle, escrow-accounting and error-handling properties.

The program has four instruction handlers: `initialize` (registry setup),
`create_room`, `join_room` and `end_game`.  Account identities (`Pubkey`)
are modelled as natural numbers, u64 fields as `Nat` with explicit
`2 ^ 64` bounds where the code checks overflow, and i64 timestamps as `Int`.
An instruction returning an error aborts the whole Solana transaction and
every account write of the instruction is reverted by the runtime; the
`..._apply` functions below model that transactional semantics. -/

namespace GameContract

/-- Account identities (`Pubkey`, an opaque 32-byte value compared by
equality) are modelled as natural numbers. -/
abbrev Pubkey := Nat

/-- The all-zero key `Pubkey::default()`, used by the program as the
"no winner yet" sentinel. -/
def defaultPubkey : Pubkey := 0

/-- Modulus of the u64 type. -/
def U64_MOD : Nat := 2 ^ 64

/-- Fixed per-player stake: `const STAKING_AMOUNT: u64 = 100_000_000;`. -/
def STAKING_AMOUNT : Nat := 100000000

/-- Minimum game duration: `const END_GAME_TIME_LIMIT: i64 = 600;`. -/
def END_GAME_TIME_LIMIT : Int := 600

/-- The `GameState` enum of the contract. -/
inductive GameState
  | Init
  | Started
  | Finished
  deriving DecidableEq

/-- The `GameError` error codes of the contract. -/
inductive GameError
  | PlayerAlreadyJoined
  | RoomIsFull
  | GameNotStarted
  | InvalidWinner
  | ArithmeticOverflow
  | TooEarlyToEndGame
  | RoomNotInitialized
  | RoomClosed
  deriving DecidableEq

/-- The `Room` account data. -/
structure Room where
  creator : Pubkey
  staking_amount : Nat
  players : List Pubkey
  state : GameState
  creation_time : Int
  winner : Pubkey
  room_id : Nat
  deriving DecidableEq

/-- The `GlobalState` account data (the registry). -/
structure GlobalState where
  total_rooms : Nat
  deriving DecidableEq

deriving instance DecidableEq for Except

/-- The `initialize` handler: `global_state.total_rooms = 0;`. -/
def initGlobalState : GlobalState := { total_rooms := 0 }

/-- u64 `checked_mul`: `some` of the product when it fits in a u64,
`none` on overflow. -/
def checked_mul (a b : Nat) : Option Nat :=
  if a * b < U64_MOD then some (a * b) else none

/-- Account-state part of the `create_room` handler:
`global_state.total_rooms += 1;` then the room fields are initialized with
`players = vec![creator]`, `state = Init`, `creation_time = now`,
`winner = Pubkey::default()` and `room_id` the incremented counter.
Modelled from the spec for the counter-overflow case, which is decided by
build configuration outside `src/`: `total_rooms += 1` overflowing the
u64 range is a fatal capacity-exhaustion abort (`none` here), not a silent
wrap-around. -/
def create_room (creator : Pubkey) (now : Int) (gs : GlobalState) :
    Option (GlobalState × Room) :=
  if gs.total_rooms + 1 < U64_MOD then
    some ({ total_rooms := gs.total_rooms + 1 },
      { creator := creator
        staking_amount := STAKING_AMOUNT
        players := [creator]
        state := GameState.Init
        creation_time := now
        winner := defaultPubkey
        room_id := gs.total_rooms + 1 })
  else
    none

/-- Room-account part of the `join_room` handler: the four `require!`
checks in source order (`state == Init`, `now - creation_time <= 300`,
`!players.contains(player)`, `players.len() < 3`), then
`players.push(player)` and, when the count reaches 3,
`state = Started`. -/
def join_room (player : Pubkey) (room : Room) (now : Int) :
    Except GameError Room :=
  if room.state = GameState.Init then
    if now - room.creation_time ≤ 300 then
      if player ∈ room.players then
        Except.error GameError.PlayerAlreadyJoined
      else
        if room.players.length < 3 then
          let pushed : Room := { room with players := room.players ++ [player] }
          Except.ok
            (if pushed.players.length = 3 then
              { pushed with state := GameState.Started }
            else
              pushed)
        else
          Except.error GameError.RoomIsFull
    else
      Except.error GameError.RoomClosed
  else
    Except.error GameError.RoomNotInitialized

/-- Room-account part of the `end_game` handler: the three `require!`
checks in source order (`state == Started`,
`now - creation_time >= END_GAME_TIME_LIMIT`, `players.contains(&winner)`),
then `state = Finished`, `winner` is recorded, and the payout
`total_amount = staking_amount.checked_mul(players.len())` is computed,
failing with `ArithmeticOverflow` when the product leaves the u64 range.
Returns the updated room together with `total_amount`. -/
def end_game (winner : Pubkey) (room : Room) (now : Int) :
    Except GameError (Room × Nat) :=
  if room.state = GameState.Started then
    if END_GAME_TIME_LIMIT ≤ now - room.creation_time then
      if winner ∈ room.players then
        match checked_mul room.staking_amount room.players.length with
        | some total =>
            Except.ok
              ({ room with state := GameState.Finished, winner := winner },
               total)
        | none => Except.error GameError.ArithmeticOverflow
      else
        Except.error GameError.InvalidWinner
    else
      Except.error GameError.TooEarlyToEndGame
  else
    Except.error GameError.GameNotStarted

/-- Errors visible at the transaction level: a typed `GameError` from a
`require!` or `checked_mul` failure, a failed system-program transfer
(insufficient lamports in the paying account), a lamport underflow when the
room account is debited, or the fatal registry-counter overflow. -/
inductive TxError
  | game (e : GameError)
  | insufficientFunds
  | lamportUnderflow
  | counterOverflow
  deriving DecidableEq

/-- The system-program transfer invoked via CPI by `create_room` and
`join_room`: moves `amount` lamports and fails when the source account
cannot fund it. -/
def transfer (fromBal toBal amount : Nat) : Option (Nat × Nat) :=
  if amount ≤ fromBal then some (fromBal - amount, toBal + amount) else none

/-- Whether an `Except` value is an error. -/
def isErr {ε α : Type} : Except ε α → Bool
  | Except.error _ => true
  | Except.ok _ => false

/-- Full `create_room` instruction: account mutation, then the CPI moving
`STAKING_AMOUNT` from the creator to the room account. -/
def create_room_sys (creator : Pubkey) (now : Int) (gs : GlobalState)
    (creatorBal roomLamports : Nat) :
    Except TxError (GlobalState × Room × Nat × Nat) :=
  match create_room creator now gs with
  | none => Except.error TxError.counterOverflow
  | some (gs', room) =>
    match transfer creatorBal roomLamports STAKING_AMOUNT with
    | none => Except.error TxError.insufficientFunds
    | some (cb, rb) => Except.ok (gs', room, cb, rb)

/-- Full `join_room` instruction: room mutation, then the CPI moving
`STAKING_AMOUNT` from the joining player to the room account. -/
def join_room_sys (player : Pubkey) (room : Room) (now : Int)
    (playerBal roomLamports : Nat) :
    Except TxError (Room × Nat × Nat) :=
  match join_room player room now with
  | Except.error e => Except.error (TxError.game e)
  | Except.ok room' =>
    match transfer playerBal roomLamports STAKING_AMOUNT with
    | none => Except.error TxError.insufficientFunds
    | some (pb, rb) => Except.ok (room', pb, rb)

/-- Full `end_game` instruction: room mutation and payout computation, then
the direct lamport moves `room.lamports -= total_amount` and
`ctx.accounts.winner.lamports += total_amount` (the u64 subtraction is
overflow-checked, so underflow aborts).  `winner` is the instruction
argument that the handler membership-checks and records in `room.winner`;
`winnerAcct` is the pubkey of the account supplied in the `EndGame.winner`
slot, an `UncheckedAccount` constrained only by `#[account(mut)]`: the
handler never compares it with the `winner` argument, so the credit goes
to `winnerAcct`'s balance whatever that key is — in particular, the
computation does not depend on `winnerAcct` at all. -/
def end_game_sys (winner : Pubkey) (room : Room) (now : Int)
    (winnerAcct : Pubkey) (roomLamports winnerAcctBal : Nat) :
    Except TxError (Room × Nat × Nat) :=
  match end_game winner room now with
  | Except.error e => Except.error (TxError.game e)
  | Except.ok (room', total) =>
    if total ≤ roomLamports then
      Except.ok (room', roomLamports - total, winnerAcctBal + total)
    else
      Except.error TxError.lamportUnderflow

/-- Persisted outcome of a `create_room` transaction.  The Solana runtime
commits the instruction's account writes only when it returns `Ok`; on any
error the whole transaction aborts and every write is reverted, so the
persisted state is the pre-state (and no room account exists). -/
def create_room_apply (creator : Pubkey) (now : Int) (gs : GlobalState)
    (creatorBal roomLamports : Nat) :
    GlobalState × Option Room × Nat × Nat :=
  match create_room_sys creator now gs creatorBal roomLamports with
  | Except.ok (gs', room, cb, rb) => (gs', some room, cb, rb)
  | Except.error _ => (gs, none, creatorBal, roomLamports)

/-- Persisted outcome of a `join_room` transaction: the instruction's
result when it succeeds, the unchanged pre-state when it fails (runtime
rollback). -/
def join_room_apply (player : Pubkey) (room : Room) (now : Int)
    (playerBal roomLamports : Nat) : Room × Nat × Nat :=
  match join_room_sys player room now playerBal roomLamports with
  | Except.ok r => r
  | Except.error _ => (room, playerBal, roomLamports)

/-- Persisted outcome of an `end_game` transaction: the instruction's
result when it succeeds, the unchanged pre-state when it fails (runtime
rollback; in particular the `state = Finished` and `winner` writes made
before a failing `checked_mul` are reverted). -/
def end_game_apply (winner : Pubkey) (room : Room) (now : Int)
    (winnerAcct : Pubkey) (roomLamports winnerAcctBal : Nat) :
    Room × Nat × Nat :=
  match end_game_sys winner room now winnerAcct roomLamports winnerAcctBal with
  | Except.ok r => r
  | Except.error _ => (room, roomLamports, winnerAcctBal)

/-- A room account: its data plus the escrowed lamports it holds (the
stakes transferred in, net of settlement). -/
structure RoomAcct where
  room : Room
  lamports : Nat
  deriving DecidableEq

/-- One successful instruction acting on a room account after its creation:
a join (which adds the joining player's stake to the escrow) or a
settlement (which pays the escrow out to the winner). -/
inductive Step : RoomAcct → RoomAcct → Prop
  | join (p : Pubkey) (now : Int) (ra : RoomAcct) (room' : Room)
      (h : join_room p ra.room now = Except.ok room') :
      Step ra { room := room', lamports := ra.lamports + STAKING_AMOUNT }
  | settle (w : Pubkey) (now : Int) (ra : RoomAcct) (room' : Room) (total : Nat)
      (h : end_game w ra.room now = Except.ok (room', total)) :
      Step ra { room := room', lamports := ra.lamports - total }

/-- Room accounts reachable by the program: created by a successful
`create_room` (which escrows the creator's stake) and evolved by
successful instructions. -/
inductive Reach : RoomAcct → Prop
  | create (c : Pubkey) (now : Int) (gs gs' : GlobalState) (room : Room)
      (h : create_room c now gs = some (gs', room)) :
      Reach { room := room, lamports := STAKING_AMOUNT }
  | step (ra ra' : RoomAcct) (h : Reach ra) (hs : Step ra ra') : Reach ra'

/-- Invariant of reachable room accounts: the stake is the fixed constant,
the player list has between 1 and 3 distinct members led by the creator,
the winner field is meaningful exactly in the `Finished` state, the escrow
holds one stake per player until settlement and nothing afterwards, and a
room past `Init` is full. -/
def RoomInv (ra : RoomAcct) : Prop :=
  ra.room.staking_amount = STAKING_AMOUNT ∧
  1 ≤ ra.room.players.length ∧
  ra.room.players.length ≤ 3 ∧
  ra.room.players.Nodup ∧
  ra.room.players.head? = some ra.room.creator ∧
  (ra.room.state = GameState.Finished → ra.room.winner ∈ ra.room.players) ∧
  (ra.room.state ≠ GameState.Finished → ra.room.winner = defaultPubkey) ∧
  (ra.room.state ≠ GameState.Finished →
    ra.lamports = ra.room.staking_amount * ra.room.players.length) ∧
  (ra.room.state = GameState.Finished → ra.lamports = 0) ∧
  (ra.room.state ≠ GameState.Init → ra.room.players.length = 3)

/-- Rank of a game state along the forward lifecycle
`Init → Started → Finished`. -/
def stateRank : GameState → Nat
  | GameState.Init => 0
  | GameState.Started => 1
  | GameState.Finished => 2

/-- Registry state right after `initialize`. -/
def gs0 : GlobalState := initGlobalState

/-- Registry state whose u64 counter is exhausted. -/
def gsMax : GlobalState := { total_rooms := U64_MOD - 1 }

/-- Concrete room created by player 1 at time 0 (first room of `gs0`). -/
def room0 : Room :=
  { creator := 1, staking_amount := STAKING_AMOUNT, players := [1],
    state := GameState.Init, creation_time := 0, winner := defaultPubkey,
    room_id := 1 }

/-- `room0` after player 2 joined. -/
def room1 : Room := { room0 with players := [1, 2] }

/-- `room1` after player 3 joined: full, so the game started. -/
def room2 : Room :=
  { room0 with players := [1, 2, 3], state := GameState.Started }

/-- `room2` after settlement in favour of player 2. -/
def room3 : Room := { room2 with state := GameState.Finished, winner := 2 }

/-- A full room still in `Init` state (capacity check exercise). -/
def roomFull : Room := { room0 with players := [1, 2, 3] }

/-- The account of `room0` holding the creator's stake. -/
def acct0 : RoomAcct := { room := room0, lamports := 100000000 }

/-- The account of `room1` holding two stakes. -/
def acct1 : RoomAcct := { room := room1, lamports := 200000000 }

/-- The account of `room2` holding the full pot of three stakes. -/
def acct2 : RoomAcct := { room := room2, lamports := 300000000 }

/-- The account of `room3` after the pot was paid out. -/
def acct3 : RoomAcct := { room := room3, lamports := 0 }

/-- Inversion of a successful `join_room`: the four checks held, the
player was appended, all other fields are unchanged, and the state became
`Started` exactly when the push brought the count to 3. -/
theorem join_room_ok_inv {p : Pubkey} {room : Room} {now : Int} {room' : Room}
    (h : join_room p room now = Except.ok room') :
    room.state = GameState.Init ∧ now - room.creation_time ≤ 300 ∧
    p ∉ room.players ∧ room.players.length < 3 ∧
    room'.creator = room.creator ∧ room'.staking_amount = room.staking_amount ∧
    room'.players = room.players ++ [p] ∧
    room'.creation_time = room.creation_time ∧ room'.winner = room.winner ∧
    room'.room_id = room.room_id ∧
    room'.state =
      (if room.players.length + 1 = 3 then GameState.Started
       else GameState.Init) := by
  unfold join_room at h
  split_ifs at h with h1 h2 h3 h4
  simp only [Except.ok.injEq] at h
  subst h
  refine ⟨h1, h2, h3, h4, ?_⟩
  split_ifs with h5 h6 h7 <;> simp_all

/-- Inversion of a successful `end_game`: the three checks held, the
payout fits in a u64 and equals `staking_amount * players.len()`, and the
room was updated to `Finished` with the given winner recorded. -/
theorem end_game_ok_inv {w : Pubkey} {room : Room} {now : Int} {room' : Room}
    {total : Nat}
    (h : end_game w room now = Except.ok (room', total)) :
    room.state = GameState.Started ∧
    END_GAME_TIME_LIMIT ≤ now - room.creation_time ∧
    w ∈ room.players ∧
    room.staking_amount * room.players.length < U64_MOD ∧
    total = room.staking_amount * room.players.length ∧
    room' = { room with state := GameState.Finished, winner := w } := by
  unfold end_game at h
  split_ifs at h with h1 h2 h3
  unfold checked_mul at h
  split_ifs at h with h4
  simp only [Except.ok.injEq, Prod.mk.injEq] at h
  obtain ⟨hr, ht⟩ := h
  exact ⟨h1, h2, h3, h4, ht.symm, hr.symm⟩

/-- Inversion of a successful `create_room`: the counter did not overflow,
it was incremented by one, and the room fields are exactly the
initialization written by the handler. -/
theorem create_room_some_inv {c : Pubkey} {now : Int} {gs gs' : GlobalState}
    {room : Room}
    (h : create_room c now gs = some (gs', room)) :
    gs.total_rooms + 1 < U64_MOD ∧
    gs'.total_rooms = gs.total_rooms + 1 ∧
    room = { creator := c, staking_amount := STAKING_AMOUNT, players := [c],
             state := GameState.Init, creation_time := now,
             winner := defaultPubkey, room_id := gs.total_rooms + 1 } := by
  unfold create_room at h
  split_ifs at h with h1
  simp only [Option.some.injEq, Prod.mk.injEq] at h
  obtain ⟨hg, hr⟩ := h
  subst hg
  exact ⟨h1, rfl, hr.symm⟩

/-- Every reachable room account satisfies `RoomInv`. -/
theorem reach_roomInv (ra : RoomAcct) (h : Reach ra) : RoomInv ra := by
  induction h with
  | create c now gs gs' room hc =>
    obtain ⟨hb, hg, hr⟩ := create_room_some_inv hc
    subst hr
    simp [RoomInv]
  | step ra ra' h hs ih =>
    obtain ⟨i1, i2, i3, i4, i5, i6, i7, i8, i9, i10⟩ := ih
    cases hs with
    | join p now ra room' hok =>
      obtain ⟨s1, s2, s3, s4, f1, f2, f3, f4, f5, f6, f7⟩ := join_room_ok_inv hok
      have hlen : room'.players.length = ra.room.players.length + 1 := by
        rw [f3]; simp
      have hnotfin : room'.state ≠ GameState.Finished := by
        rw [f7]; split_ifs <;> simp
      have hprefin : ra.room.state ≠ GameState.Finished := by
        rw [s1]; simp
      refine ⟨?_, ?_, ?_, ?_, ?_, ?_, ?_, ?_, ?_, ?_⟩
      · rw [f2]; exact i1
      · simp only [hlen]; omega
      · simp only [hlen]; omega
      · rw [f3]
        exact List.nodup_append.mpr ⟨i4, List.nodup_singleton p, by simp [s3]⟩
      · rw [f3, f1]
        rw [List.head?_append_of_ne_nil]
        · exact i5
        · intro hnil; rw [hnil] at i2; simp at i2
      · intro hfin; exact absurd hfin hnotfin
      · intro _; rw [f5]; exact i7 hprefin
      · intro _
        rw [f2, hlen, i1]
        have he := i8 hprefin
        rw [i1] at he
        simp only [he]
        ring
      · intro hfin; exact absurd hfin hnotfin
      · intro hne
        rw [f7] at hne
        rw [hlen]
        by_cases hc3 : ra.room.players.length + 1 = 3
        · exact hc3
        · rw [if_neg hc3] at hne; exact absurd rfl hne
    | settle w now ra room' total hok =>
      obtain ⟨s1, s2, s3, s4, s5, s6⟩ := end_game_ok_inv hok
      have hprefin : ra.room.state ≠ GameState.Finished := by
        rw [s1]; simp
      have hpreinit : ra.room.state ≠ GameState.Init := by
        rw [s1]; simp
      subst s6
      refine ⟨i1, i2, i3, i4, i5, ?_, ?_, ?_, ?_, ?_⟩
      · intro _; exact s3
      · intro hne; exact absurd rfl hne
      · intro hne; exact absurd rfl hne
      · intro _
        have he := i8 hprefin
        show ra.lamports - total = 0
        rw [s5, ← he]
        omega
      · intro _; exact i10 hpreinit

/-- The creator's stake account for `room0` is reachable. -/
theorem reach_acct0 : Reach acct0 :=
  Reach.create 1 0 gs0 { total_rooms := 1 } room0 (by decide)

/-- Joining `room0` with player 2 is a step to `acct1`. -/
theorem step_acct0_acct1 : Step acct0 acct1 :=
  Step.join 2 10 acct0 room1 (by decide)

/-- Joining `room1` with player 3 is a step to `acct2`. -/
theorem step_acct1_acct2 : Step acct1 acct2 :=
  Step.join 3 20 acct1 room2 (by decide)

/-- Settling `room2` in favour of player 2 is a step to `acct3`. -/
theorem step_acct2_acct3 : Step acct2 acct3 :=
  Step.settle 2 600 acct2 room3 300000000 (by decide)

/-- The two-player account `acct1` is reachable. -/
theorem reach_acct1 : Reach acct1 :=
  Reach.step acct0 acct1 reach_acct0 step_acct0_acct1

/-- The full, started account `acct2` is reachable. -/
theorem reach_acct2 : Reach acct2 :=
  Reach.step acct1 acct2 reach_acct1 step_acct1_acct2

/-- The settled account `acct3` is reachable. -/
theorem reach_acct3 : Reach acct3 :=
  Reach.step acct2 acct3 reach_acct2 step_acct2_acct3

/-- C1: refuted on the code.  The `require!` at line 83 membership-checks
only the `winner` instruction argument, while the credit at line 94 goes
to `ctx.accounts.winner`, an `UncheckedAccount` (lines 146-147) that
nothing binds to the checked argument.  Settling the concrete full room
with member 2 as the checked argument but non-participant 9's account in
the `EndGame.winner` slot succeeds, records `room.winner = 2`, and credits
the whole 300000000-lamport pot to account 9's balance — funds released to
a party that is not in `players`. -/
theorem c1_pot_paid_to_unchecked_account :
    (9 : Pubkey) ∉ room2.players ∧
    end_game_sys 2 room2 600 9 300000000 0 =
      Except.ok (room3, 0, 300000000) ∧
    room3.winner = 2 ∧ room3.winner ≠ 9 := by decide
/-- C2: for each of the three operations, any error leaves the persisted
state — registry, room data and all balances — exactly as before the call
(the runtime reverts every account write of a failed instruction). -/
theorem c2_failure_all_or_nothing (c p w wAcct : Pubkey) (now : Int)
    (gs : GlobalState) (room : Room) (cBal pBal wBal roomL : Nat) :
    (isErr (create_room_sys c now gs cBal roomL) = true →
      create_room_apply c now gs cBal roomL = (gs, none, cBal, roomL)) ∧
    (isErr (join_room_sys p room now pBal roomL) = true →
      join_room_apply p room now pBal roomL = (room, pBal, roomL)) ∧
    (isErr (end_game_sys w room now wAcct roomL wBal) = true →
      end_game_apply w room now wAcct roomL wBal = (room, roomL, wBal)) := by
  refine ⟨?_, ?_, ?_⟩ <;> intro h
  · cases hx : create_room_sys c now gs cBal roomL with
    | ok v => rw [hx] at h; simp [isErr] at h
    | error e => simp [create_room_apply, hx]
  · cases hx : join_room_sys p room now pBal roomL with
    | ok v => rw [hx] at h; simp [isErr] at h
    | error e => simp [join_room_apply, hx]
  · cases hx : end_game_sys w room now wAcct roomL wBal with
    | ok v => rw [hx] at h; simp [isErr] at h
    | error e => simp [end_game_apply, hx]
/-- C3: settling any reachable room pays the winner exactly
`staking_amount * players.len()`, computed by the overflow-checked
multiplication; that amount equals the sum of stakes paid into the room
(the escrow balance), and the escrow holds 0 after the settlement. -/
theorem c3_settlement_accounting (ra : RoomAcct) (w : Pubkey) (now : Int)
    (room' : Room) (total : Nat) (hr : Reach ra)
    (h : end_game w ra.room now = Except.ok (room', total)) :
    total = ra.room.staking_amount * ra.room.players.length ∧
    total = STAKING_AMOUNT * ra.room.players.length ∧
    checked_mul ra.room.staking_amount ra.room.players.length = some total ∧
    total = ra.lamports ∧
    ra.lamports - total = 0 ∧
    room'.state = GameState.Finished := by
  obtain ⟨i1, i2, i3, i4, i5, i6, i7, i8, i9, i10⟩ := reach_roomInv ra hr
  obtain ⟨e1, e2, e3, e4, e5, e6⟩ := end_game_ok_inv h
  have hprefin : ra.room.state ≠ GameState.Finished := by
    rw [e1]; simp
  have hesc := i8 hprefin
  refine ⟨e5, by rw [e5, i1], ?_, ?_, ?_, by rw [e6]⟩
  · unfold checked_mul
    rw [if_pos e4, e5]
  · rw [e5, hesc]
  · rw [e5, hesc]
    omega
/-- C4: `join_room` checks its preconditions in the fixed order state,
timing (a join at exactly 300 seconds is allowed), membership, capacity,
each failing with its own error; when all hold it succeeds and appends the
caller to `players`. -/
theorem c4_join_room_error_precedence (p : Pubkey) (room : Room) (now : Int) :
    (room.state ≠ GameState.Init →
      join_room p room now = Except.error GameError.RoomNotInitialized) ∧
    (room.state = GameState.Init → 300 < now - room.creation_time →
      join_room p room now = Except.error GameError.RoomClosed) ∧
    (room.state = GameState.Init → now - room.creation_time ≤ 300 →
      p ∈ room.players →
      join_room p room now = Except.error GameError.PlayerAlreadyJoined) ∧
    (room.state = GameState.Init → now - room.creation_time ≤ 300 →
      p ∉ room.players → 3 ≤ room.players.length →
      join_room p room now = Except.error GameError.RoomIsFull) ∧
    (room.state = GameState.Init → now - room.creation_time ≤ 300 →
      p ∉ room.players → room.players.length < 3 →
      ∃ room', join_room p room now = Except.ok room' ∧
        room'.players = room.players ++ [p]) := by
  refine ⟨?_, ?_, ?_, ?_, ?_⟩
  · intro h1
    simp [join_room, h1]
  · intro h1 h2
    simp [join_room, h1, not_le.mpr h2]
  · intro h1 h2 h3
    simp [join_room, h1, h2, h3]
  · intro h1 h2 h3 h4
    simp [join_room, h1, h2, h3, not_lt.mpr h4]
  · intro h1 h2 h3 h4
    have hok : ∃ room', join_room p room now = Except.ok room' := by
      simp [join_room, h1, h2, h3, h4]
    obtain ⟨room', hok⟩ := hok
    exact ⟨room', hok, (join_room_ok_inv hok).2.2.2.2.2.2.1⟩

/-- C5: `end_game` checks its preconditions in the fixed order state
(failing in both `Init` and `Finished`), timing (a call at exactly
600 seconds passes the check), winner membership, each failing with its
own error; when all hold and the payout multiplication fits, settlement
proceeds. -/
theorem c5_end_game_error_precedence (w : Pubkey) (room : Room) (now : Int) :
    (room.state ≠ GameState.Started →
      end_game w room now = Except.error GameError.GameNotStarted) ∧
    (room.state = GameState.Started → now - room.creation_time < 600 →
      end_game w room now = Except.error GameError.TooEarlyToEndGame) ∧
    (room.state = GameState.Started → 600 ≤ now - room.creation_time →
      w ∉ room.players →
      end_game w room now = Except.error GameError.InvalidWinner) ∧
    (room.state = GameState.Started → 600 ≤ now - room.creation_time →
      w ∈ room.players → ∀ t,
      checked_mul room.staking_amount room.players.length = some t →
      end_game w room now =
        Except.ok ({ room with state := GameState.Finished, winner := w }, t)) := by
  refine ⟨?_, ?_, ?_, ?_⟩
  · intro h1
    simp [end_game, h1]
  · intro h1 h2
    have : ¬ END_GAME_TIME_LIMIT ≤ now - room.creation_time := by
      unfold END_GAME_TIME_LIMIT; omega
    simp [end_game, h1, this]
  · intro h1 h2 h3
    have : END_GAME_TIME_LIMIT ≤ now - room.creation_time := by
      unfold END_GAME_TIME_LIMIT; omega
    simp [end_game, h1, this, h3]
  · intro h1 h2 h3 t ht
    have hle : END_GAME_TIME_LIMIT ≤ now - room.creation_time := by
      unfold END_GAME_TIME_LIMIT; omega
    simp [end_game, h1, hle, h3, ht]
/-- C6: a successful `join_room` leaves the room `Started` exactly when the
player list reached 3, and leaves it `Init` when fewer than 3 players are
in; the `Init → Started` transition happens in the same action as the
third join. -/
theorem c6_started_iff_three_players (p : Pubkey) (room room' : Room)
    (now : Int) (h : join_room p room now = Except.ok room') :
    (room'.state = GameState.Started ↔ room'.players.length = 3) ∧
    (room'.players.length < 3 → room'.state = GameState.Init) := by
  obtain ⟨s1, s2, s3, s4, f1, f2, f3, f4, f5, f6, f7⟩ := join_room_ok_inv h
  have hlen : room'.players.length = room.players.length + 1 := by
    rw [f3]; simp
  rw [hlen, f7]
  by_cases hc : room.players.length + 1 = 3
  · rw [if_pos hc]
    constructor
    · exact ⟨fun _ => hc, fun _ => rfl⟩
    · intro hlt; omega
  · rw [if_neg hc]
    constructor
    · constructor
      · intro hco; exact absurd hco (by simp)
      · intro h3; exact absurd h3 hc
    · intro _; rfl

/-- C7: on every reachable room the player list has 1 to 3 members, no
duplicates, and starts with the creator; and every successful operation
either leaves the list unchanged or appends one new player at its end,
the latter only while the room is still `Init` — the list never shrinks
and join order is preserved. -/
theorem c7_player_list_invariants (ra ra' : RoomAcct) :
    (Reach ra →
      1 ≤ ra.room.players.length ∧ ra.room.players.length ≤ 3 ∧
      ra.room.players.Nodup ∧
      ra.room.players.head? = some ra.room.creator) ∧
    (Step ra ra' →
      ra'.room.players = ra.room.players ∨
      (ra.room.state = GameState.Init ∧ ∃ p, p ∉ ra.room.players ∧
        ra'.room.players = ra.room.players ++ [p])) := by
  constructor
  · intro hr
    obtain ⟨i1, i2, i3, i4, i5, i6, i7, i8, i9, i10⟩ := reach_roomInv ra hr
    exact ⟨i2, i3, i4, i5⟩
  · intro hs
    cases hs with
    | join p now ra room' hok =>
      obtain ⟨s1, s2, s3, s4, f1, f2, f3, f4, f5, f6, f7⟩ := join_room_ok_inv hok
      exact Or.inr ⟨s1, p, s3, f3⟩
    | settle w now ra room' total hok =>
      obtain ⟨s1, s2, s3, s4, s5, s6⟩ := end_game_ok_inv hok
      left
      rw [s6]

/-- C8: on every reachable room, `Finished` implies the recorded winner is
a member of `players` and any other state implies the winner field still
holds the unset sentinel; and every successful operation moves the state
forward along `Init → Started → Finished` (it either keeps the state or
strictly increases its rank — never backward, never a cycle). -/
theorem c8_winner_field_and_forward_states (ra ra' : RoomAcct) :
    (Reach ra →
      (ra.room.state = GameState.Finished →
        ra.room.winner ∈ ra.room.players) ∧
      (ra.room.state ≠ GameState.Finished →
        ra.room.winner = defaultPubkey)) ∧
    (Step ra ra' →
      stateRank ra.room.state ≤ stateRank ra'.room.state ∧
      (ra.room.state = ra'.room.state ∨
        stateRank ra.room.state < stateRank ra'.room.state)) := by
  constructor
  · intro hr
    obtain ⟨i1, i2, i3, i4, i5, i6, i7, i8, i9, i10⟩ := reach_roomInv ra hr
    exact ⟨i6, i7⟩
  · intro hs
    cases hs with
    | join p now ra room' hok =>
      obtain ⟨s1, s2, s3, s4, f1, f2, f3, f4, f5, f6, f7⟩ := join_room_ok_inv hok
      show stateRank ra.room.state ≤ stateRank room'.state ∧
        (ra.room.state = room'.state ∨
          stateRank ra.room.state < stateRank room'.state)
      rw [s1, f7]
      by_cases hc : ra.room.players.length + 1 = 3
      · rw [if_pos hc]
        exact ⟨by simp [stateRank], Or.inr (by simp [stateRank])⟩
      · rw [if_neg hc]
        exact ⟨le_refl _, Or.inl rfl⟩
    | settle w now ra room' total hok =>
      obtain ⟨s1, s2, s3, s4, s5, s6⟩ := end_game_ok_inv hok
      show stateRank ra.room.state ≤ stateRank room'.state ∧
        (ra.room.state = room'.state ∨
          stateRank ra.room.state < stateRank room'.state)
      rw [s1, s6]
      exact ⟨by simp [stateRank], Or.inr (by simp [stateRank])⟩
/-- C9: `initialize` starts the registry counter at 0; each successful
`create_room` increments it by exactly 1 and gives the new room the
counter value after the increment as its `room_id`; the only failure of
identifier allocation is u64 counter exhaustion, a fatal abort rather than
a wrap-around. -/
theorem c9_registry_counter (c : Pubkey) (now : Int) (gs gs' : GlobalState)
    (room : Room) :
    initGlobalState.total_rooms = 0 ∧
    (create_room c now gs = some (gs', room) →
      gs'.total_rooms = gs.total_rooms + 1 ∧
      room.room_id = gs'.total_rooms) ∧
    (create_room c now gs = none ↔ ¬ gs.total_rooms + 1 < U64_MOD) := by
  refine ⟨rfl, ?_, ?_⟩
  · intro h
    obtain ⟨hb, hg, hr⟩ := create_room_some_inv h
    exact ⟨hg, by rw [hr, hg]⟩
  · unfold create_room
    split_ifs with h1 <;> simp [h1]

/-- C10: every reachable room has the constant stake and at most 3
players, so the checked payout multiplication in `end_game` always fits in
a u64 and the `ArithmeticOverflow` branch is unreachable. -/
theorem c10_overflow_branch_unreachable (ra : RoomAcct) (w : Pubkey)
    (now : Int) (hr : Reach ra) :
    ra.room.staking_amount = STAKING_AMOUNT ∧
    ra.room.players.length ≤ 3 ∧
    checked_mul ra.room.staking_amount ra.room.players.length =
      some (ra.room.staking_amount * ra.room.players.length) ∧
    end_game w ra.room now ≠ Except.error GameError.ArithmeticOverflow := by
  obtain ⟨i1, i2, i3, i4, i5, i6, i7, i8, i9, i10⟩ := reach_roomInv ra hr
  have hbound : ra.room.staking_amount * ra.room.players.length < U64_MOD := by
    rw [i1]
    calc STAKING_AMOUNT * ra.room.players.length
        ≤ STAKING_AMOUNT * 3 := Nat.mul_le_mul_left _ i3
      _ < U64_MOD := by unfold STAKING_AMOUNT U64_MOD; norm_num
  have hcm : checked_mul ra.room.staking_amount ra.room.players.length =
      some (ra.room.staking_amount * ra.room.players.length) := by
    unfold checked_mul
    rw [if_pos hbound]
  refine ⟨i1, i3, hcm, ?_⟩
  intro hEq
  unfold end_game at hEq
  split_ifs at hEq with h1 h2 h3
  · rw [hcm] at hEq
    exact Except.noConfusion hEq
  · simp at hEq
  · simp at hEq
  · simp at hEq
/-- C2 witness: a failing `create_room` (counter exhausted), `join_room`
(room already started) and `end_game` (called too early) each persist the
exact pre-state. -/
theorem c2_failure_all_or_nothing_witness :
    create_room_apply 1 100 gsMax 100000000 300000000 =
      (gsMax, none, 100000000, 300000000) ∧
    join_room_apply 2 room2 100 100000000 300000000 =
      (room2, 100000000, 300000000) ∧
    end_game_apply 2 room2 100 9 300000000 0 = (room2, 300000000, 0) :=
  ⟨(c2_failure_all_or_nothing 1 2 2 9 100 gsMax room2 100000000 100000000 0
      300000000).1 (by decide),
   (c2_failure_all_or_nothing 1 2 2 9 100 gsMax room2 100000000 100000000 0
      300000000).2.1 (by decide),
   (c2_failure_all_or_nothing 1 2 2 9 100 gsMax room2 100000000 100000000 0
      300000000).2.2 (by decide)⟩

/-- C3 witness: settling the reachable concrete room pays exactly the three
stakes held in escrow and leaves the escrow at 0. -/
theorem c3_settlement_accounting_witness :
    (300000000 : Nat) = room2.staking_amount * room2.players.length ∧
    (300000000 : Nat) = STAKING_AMOUNT * room2.players.length ∧
    checked_mul room2.staking_amount room2.players.length = some 300000000 ∧
    (300000000 : Nat) = acct2.lamports ∧
    acct2.lamports - 300000000 = 0 ∧
    room3.state = GameState.Finished :=
  c3_settlement_accounting acct2 2 600 room3 300000000 reach_acct2 (by decide)

/-- C4 witness: the four `join_room` error cases and the success case on
concrete rooms. -/
theorem c4_join_room_error_precedence_witness :
    join_room 2 room2 10 = Except.error GameError.RoomNotInitialized ∧
    join_room 2 room0 301 = Except.error GameError.RoomClosed ∧
    join_room 1 room0 10 = Except.error GameError.PlayerAlreadyJoined ∧
    join_room 4 roomFull 10 = Except.error GameError.RoomIsFull ∧
    ∃ room', join_room 2 room0 10 = Except.ok room' ∧
      room'.players = room0.players ++ [2] :=
  ⟨(c4_join_room_error_precedence 2 room2 10).1 (by decide),
   (c4_join_room_error_precedence 2 room0 301).2.1 (by decide) (by decide),
   (c4_join_room_error_precedence 1 room0 10).2.2.1 (by decide) (by decide)
     (by decide),
   (c4_join_room_error_precedence 4 roomFull 10).2.2.2.1 (by decide)
     (by decide) (by decide) (by decide),
   (c4_join_room_error_precedence 2 room0 10).2.2.2.2 (by decide) (by decide)
     (by decide) (by decide)⟩

/-- C5 witness: the three `end_game` error cases and the success case on
concrete rooms, with the timing check passing at exactly 600 seconds. -/
theorem c5_end_game_error_precedence_witness :
    end_game 2 room0 600 = Except.error GameError.GameNotStarted ∧
    end_game 2 room2 599 = Except.error GameError.TooEarlyToEndGame ∧
    end_game 9 room2 600 = Except.error GameError.InvalidWinner ∧
    end_game 2 room2 600 =
      Except.ok ({ room2 with state := GameState.Finished, winner := 2 },
        300000000) :=
  ⟨(c5_end_game_error_precedence 2 room0 600).1 (by decide),
   (c5_end_game_error_precedence 2 room2 599).2.1 (by decide) (by decide),
   (c5_end_game_error_precedence 9 room2 600).2.2.1 (by decide) (by decide)
     (by decide),
   (c5_end_game_error_precedence 2 room2 600).2.2.2 (by decide) (by decide)
     (by decide) 300000000 (by decide)⟩

/-- C6 witness: the third join on the concrete rooms starts the game, and a
second join leaves the room in `Init`. -/
theorem c6_started_iff_three_players_witness :
    (room2.state = GameState.Started ↔ room2.players.length = 3) ∧
    room1.state = GameState.Init :=
  ⟨(c6_started_iff_three_players 3 room1 room2 20 (by decide)).1,
   (c6_started_iff_three_players 2 room0 room1 10 (by decide)).2 (by decide)⟩

/-- C7 witness: the reachable full room satisfies the player-list
invariants, and the join step from two to three players appended player 3
in `Init` state. -/
theorem c7_player_list_invariants_witness :
    (1 ≤ room2.players.length ∧ room2.players.length ≤ 3 ∧
      room2.players.Nodup ∧ room2.players.head? = some room2.creator) ∧
    (room2.players = room1.players ∨
      (room1.state = GameState.Init ∧ ∃ p, p ∉ room1.players ∧
        room2.players = room1.players ++ [p])) :=
  ⟨(c7_player_list_invariants acct2 acct2).1 reach_acct2,
   (c7_player_list_invariants acct1 acct2).2 step_acct1_acct2⟩

/-- C8 witness: the reachable started room has the sentinel winner, the
settled room's winner is a member, and the join step does not move the
state backwards. -/
theorem c8_winner_field_and_forward_states_witness :
    room2.winner = defaultPubkey ∧
    room3.winner ∈ room3.players ∧
    stateRank room1.state ≤ stateRank room2.state :=
  ⟨((c8_winner_field_and_forward_states acct2 acct2).1 reach_acct2).2
      (by decide),
   ((c8_winner_field_and_forward_states acct3 acct3).1 reach_acct3).1
      (by decide),
   ((c8_winner_field_and_forward_states acct1 acct2).2 step_acct1_acct2).1⟩

/-- C9 witness: the counter starts at 0, creating the first room makes its
`room_id` the incremented counter 1, and allocation at the exhausted
counter fails exactly by overflow. -/
theorem c9_registry_counter_witness :
    initGlobalState.total_rooms = 0 ∧
    (({ total_rooms := 1 } : GlobalState).total_rooms = gs0.total_rooms + 1 ∧
      room0.room_id = ({ total_rooms := 1 } : GlobalState).total_rooms) ∧
    (create_room 1 0 gsMax = none ↔ ¬ gsMax.total_rooms + 1 < U64_MOD) :=
  ⟨(c9_registry_counter 1 0 gs0 { total_rooms := 1 } room0).1,
   (c9_registry_counter 1 0 gs0 { total_rooms := 1 } room0).2.1 (by decide),
   (c9_registry_counter 1 0 gsMax { total_rooms := 1 } room0).2.2⟩

/-- C10 witness: on the reachable full room the checked multiplication
succeeds and `end_game` cannot return `ArithmeticOverflow`. -/
theorem c10_overflow_branch_unreachable_witness :
    room2.staking_amount = STAKING_AMOUNT ∧
    room2.players.length ≤ 3 ∧
    checked_mul room2.staking_amount room2.players.length =
      some (room2.staking_amount * room2.players.length) ∧
    end_game 9 room2 700 ≠ Except.error GameError.ArithmeticOverflow :=
  c10_overflow_branch_unreachable acct2 9 700 reach_acct2
end GameContract
